import Mathlib

/-!
Verification of the error taxonomy of `biscuit-rust` (`src/error.rs`).

The Rust enums and structs are embedded as Lean inductive types and
structures with the same names, constructors and payloads.  Rust `u32`
and `usize` payloads are modelled as `Nat` (no arithmetic is performed
on them, so overflow is irrelevant), `String` as `String`, `Vec` as
`List`.  The `From` conversion impls become the functions
`Token.fromInfallible`, `Token.fromFormat`, `Token.fromLogic` and
`Token.fromDecodeError`.  The derived `PartialEq` instances become the
component-wise `beq` functions and the derived `Clone` instances become
the member-wise `clone` functions below.
-/

namespace Biscuit

/-- The error type of the external `base64` crate (`base64::DecodeError`),
which is the payload of `Token::Base64`.  It is external to this
repository; it is embedded by its declared variants so that its values
can be stored, compared and recovered verbatim. -/
inductive DecodeError where
  | InvalidByte (offset : Nat) (byte : Nat)
  | InvalidLength
  | InvalidLastSymbol (offset : Nat) (byte : Nat)
deriving DecidableEq

/-- `enum Signature` of `src/error.rs`: signature errors. -/
inductive Signature where
  | InvalidFormat
  | InvalidSignature
deriving DecidableEq

/-- `enum Format` of `src/error.rs`: errors related to the token
serialization format or cryptographic signature. -/
inductive Format where
  | Signature (s : Signature)
  | SealedSignature
  | EmptyKeys
  | UnknownPublicKey
  | DeserializationError (msg : String)
  | SerializationError (msg : String)
  | BlockDeserializationError (msg : String)
  | BlockSerializationError (msg : String)
  | Version (maximum : Nat) (actual : Nat)
deriving DecidableEq

/-- `struct FailedBlockCheck` of `src/error.rs`. -/
structure FailedBlockCheck where
  block_id : Nat
  check_id : Nat
  rule : String
deriving DecidableEq

/-- `struct FailedVerifierCheck` of `src/error.rs`. -/
structure FailedVerifierCheck where
  check_id : Nat
  rule : String
deriving DecidableEq

/-- `enum FailedCheck` of `src/error.rs`: a single check that failed,
tagged with its origin. -/
inductive FailedCheck where
  | Block (c : FailedBlockCheck)
  | Verifier (c : FailedVerifierCheck)
deriving DecidableEq

/-- `enum Logic` of `src/error.rs`: errors in the Datalog evaluation. -/
inductive Logic where
  | InvalidAuthorityFact (rule : String)
  | InvalidAmbientFact (rule : String)
  | InvalidBlockFact (block : Nat) (rule : String)
  | InvalidBlockRule (block : Nat) (rule : String)
  | FailedChecks (l : List FailedCheck)
  | VerifierNotEmpty
  | Deny (policy : Nat)
  | NoMatchingPolicy
deriving DecidableEq

/-- `enum RunLimit` of `src/error.rs`: runtime limits errors. -/
inductive RunLimit where
  | TooManyFacts
  | TooManyIterations
  | Timeout
deriving DecidableEq

/-- `struct InvalidBlockIndex` of `src/error.rs`. -/
structure InvalidBlockIndex where
  expected : Nat
  found : Nat
deriving DecidableEq

/-- `enum Token` of `src/error.rs`: the global error type for Biscuit. -/
inductive Token where
  | InternalError
  | Format (f : Format)
  | InvalidAuthorityIndex (index : Nat)
  | InvalidBlockIndex (i : InvalidBlockIndex)
  | SymbolTableOverlap
  | MissingSymbols
  | Sealed
  | FailedLogic (l : Logic)
  | ParseError
  | RunLimit (r : RunLimit)
  | ConversionError (msg : String)
  | Base64 (e : DecodeError)
deriving DecidableEq

/-- `impl From<Infallible> for Token` (`src/error.rs` lines 36-40).  The
source type `std::convert::Infallible` is uninhabited, embedded as
`Empty`; the Rust body is `unreachable!()`, embedded as the eliminator
of the empty type. -/
def Token.fromInfallible : Empty → Token := fun e => e.elim

/-- `impl From<Format> for Token` (`src/error.rs` lines 42-46). -/
def Token.fromFormat (e : Biscuit.Format) : Token := Token.Format e

/-- `impl From<Logic> for Token` (`src/error.rs` lines 48-52). -/
def Token.fromLogic (e : Biscuit.Logic) : Token := Token.FailedLogic e

/-- `impl From<base64::DecodeError> for Token` (`src/error.rs` lines 54-58). -/
def Token.fromDecodeError (e : DecodeError) : Token := Token.Base64 e

/-- The source types of the `From` impls targeting `Token` declared in
`src/error.rs` (lines 36-58): there are exactly four such impls, with
source types `Infallible`, `Format`, `Logic` and `base64::DecodeError`. -/
inductive TokenFromImpl where
  | fromInfallible
  | fromFormat
  | fromLogic
  | fromDecodeError
deriving DecidableEq

/-- `derive(PartialEq)` for `base64::DecodeError`: component-wise value
equality. -/
def DecodeError.beq : DecodeError → DecodeError → Bool
  | .InvalidByte o1 b1, .InvalidByte o2 b2 => o1 == o2 && b1 == b2
  | .InvalidLength, .InvalidLength => true
  | .InvalidLastSymbol o1 b1, .InvalidLastSymbol o2 b2 => o1 == o2 && b1 == b2
  | _, _ => false

/-- `derive(PartialEq)` for `Signature` (`src/error.rs` line 91). -/
def Signature.beq : Signature → Signature → Bool
  | .InvalidFormat, .InvalidFormat => true
  | .InvalidSignature, .InvalidSignature => true
  | _, _ => false

/-- `derive(PartialEq)` for `Format` (`src/error.rs` line 68). -/
def Format.beq : Format → Format → Bool
  | .Signature a, .Signature b => Signature.beq a b
  | .SealedSignature, .SealedSignature => true
  | .EmptyKeys, .EmptyKeys => true
  | .UnknownPublicKey, .UnknownPublicKey => true
  | .DeserializationError a, .DeserializationError b => a == b
  | .SerializationError a, .SerializationError b => a == b
  | .BlockDeserializationError a, .BlockDeserializationError b => a == b
  | .BlockSerializationError a, .BlockSerializationError b => a == b
  | .Version m1 a1, .Version m2 a2 => m1 == m2 && a1 == a2
  | _, _ => false

/-- `derive(PartialEq)` for `FailedBlockCheck` (`src/error.rs` line 129). -/
def FailedBlockCheck.beq (a b : FailedBlockCheck) : Bool :=
  a.block_id == b.block_id && a.check_id == b.check_id && a.rule == b.rule

/-- `derive(PartialEq)` for `FailedVerifierCheck` (`src/error.rs` line 137). -/
def FailedVerifierCheck.beq (a b : FailedVerifierCheck) : Bool :=
  a.check_id == b.check_id && a.rule == b.rule

/-- `derive(PartialEq)` for `FailedCheck` (`src/error.rs` line 121). -/
def FailedCheck.beq : FailedCheck → FailedCheck → Bool
  | .Block a, .Block b => FailedBlockCheck.beq a b
  | .Verifier a, .Verifier b => FailedVerifierCheck.beq a b
  | _, _ => false

/-- `PartialEq` for `Vec<FailedCheck>`: element-wise equality of
equal-length vectors. -/
def FailedCheck.listBeq : List FailedCheck → List FailedCheck → Bool
  | [], [] => true
  | a :: as, b :: bs => FailedCheck.beq a b && FailedCheck.listBeq as bs
  | _, _ => false

/-- `derive(PartialEq)` for `Logic` (`src/error.rs` line 100). -/
def Logic.beq : Logic → Logic → Bool
  | .InvalidAuthorityFact a, .InvalidAuthorityFact b => a == b
  | .InvalidAmbientFact a, .InvalidAmbientFact b => a == b
  | .InvalidBlockFact i1 a, .InvalidBlockFact i2 b => i1 == i2 && a == b
  | .InvalidBlockRule i1 a, .InvalidBlockRule i2 b => i1 == i2 && a == b
  | .FailedChecks a, .FailedChecks b => FailedCheck.listBeq a b
  | .VerifierNotEmpty, .VerifierNotEmpty => true
  | .Deny i1, .Deny i2 => i1 == i2
  | .NoMatchingPolicy, .NoMatchingPolicy => true
  | _, _ => false

/-- `derive(PartialEq)` for `RunLimit` (`src/error.rs` line 145). -/
def RunLimit.beq : RunLimit → RunLimit → Bool
  | .TooManyFacts, .TooManyFacts => true
  | .TooManyIterations, .TooManyIterations => true
  | .Timeout, .Timeout => true
  | _, _ => false

/-- `derive(PartialEq)` for `InvalidBlockIndex` (`src/error.rs` line 60). -/
def InvalidBlockIndex.beq (a b : InvalidBlockIndex) : Bool :=
  a.expected == b.expected && a.found == b.found

/-- `derive(PartialEq)` for `Token` (`src/error.rs` line 8). -/
def Token.beq : Token → Token → Bool
  | .InternalError, .InternalError => true
  | .Format a, .Format b => Format.beq a b
  | .InvalidAuthorityIndex i1, .InvalidAuthorityIndex i2 => i1 == i2
  | .InvalidBlockIndex a, .InvalidBlockIndex b => InvalidBlockIndex.beq a b
  | .SymbolTableOverlap, .SymbolTableOverlap => true
  | .MissingSymbols, .MissingSymbols => true
  | .Sealed, .Sealed => true
  | .FailedLogic a, .FailedLogic b => Logic.beq a b
  | .ParseError, .ParseError => true
  | .RunLimit a, .RunLimit b => RunLimit.beq a b
  | .ConversionError a, .ConversionError b => a == b
  | .Base64 a, .Base64 b => DecodeError.beq a b
  | _, _ => false

/-- `derive(Clone)` for `base64::DecodeError`: member-wise copy. -/
def DecodeError.clone : DecodeError → DecodeError
  | .InvalidByte o b => .InvalidByte o b
  | .InvalidLength => .InvalidLength
  | .InvalidLastSymbol o b => .InvalidLastSymbol o b

/-- `derive(Clone)` for `Signature`. -/
def Signature.clone : Signature → Signature
  | .InvalidFormat => .InvalidFormat
  | .InvalidSignature => .InvalidSignature

/-- `derive(Clone)` for `Format`. -/
def Format.clone : Format → Format
  | .Signature s => .Signature (Signature.clone s)
  | .SealedSignature => .SealedSignature
  | .EmptyKeys => .EmptyKeys
  | .UnknownPublicKey => .UnknownPublicKey
  | .DeserializationError m => .DeserializationError m
  | .SerializationError m => .SerializationError m
  | .BlockDeserializationError m => .BlockDeserializationError m
  | .BlockSerializationError m => .BlockSerializationError m
  | .Version m a => .Version m a

/-- `derive(Clone)` for `FailedBlockCheck`. -/
def FailedBlockCheck.clone (c : FailedBlockCheck) : FailedBlockCheck :=
  ⟨c.block_id, c.check_id, c.rule⟩

/-- `derive(Clone)` for `FailedVerifierCheck`. -/
def FailedVerifierCheck.clone (c : FailedVerifierCheck) : FailedVerifierCheck :=
  ⟨c.check_id, c.rule⟩

/-- `derive(Clone)` for `FailedCheck`. -/
def FailedCheck.clone : FailedCheck → FailedCheck
  | .Block c => .Block (FailedBlockCheck.clone c)
  | .Verifier c => .Verifier (FailedVerifierCheck.clone c)

/-- `derive(Clone)` for `Logic`; `Vec::clone` clones each element. -/
def Logic.clone : Logic → Logic
  | .InvalidAuthorityFact r => .InvalidAuthorityFact r
  | .InvalidAmbientFact r => .InvalidAmbientFact r
  | .InvalidBlockFact i r => .InvalidBlockFact i r
  | .InvalidBlockRule i r => .InvalidBlockRule i r
  | .FailedChecks l => .FailedChecks (l.map FailedCheck.clone)
  | .VerifierNotEmpty => .VerifierNotEmpty
  | .Deny i => .Deny i
  | .NoMatchingPolicy => .NoMatchingPolicy

/-- `derive(Clone)` for `RunLimit`. -/
def RunLimit.clone : RunLimit → RunLimit
  | .TooManyFacts => .TooManyFacts
  | .TooManyIterations => .TooManyIterations
  | .Timeout => .Timeout

/-- `derive(Clone)` for `InvalidBlockIndex`. -/
def InvalidBlockIndex.clone (i : InvalidBlockIndex) : InvalidBlockIndex :=
  ⟨i.expected, i.found⟩

/-- `derive(Clone)` for `Token`. -/
def Token.clone : Token → Token
  | .InternalError => .InternalError
  | .Format f => .Format (Format.clone f)
  | .InvalidAuthorityIndex i => .InvalidAuthorityIndex i
  | .InvalidBlockIndex i => .InvalidBlockIndex (InvalidBlockIndex.clone i)
  | .SymbolTableOverlap => .SymbolTableOverlap
  | .MissingSymbols => .MissingSymbols
  | .Sealed => .Sealed
  | .FailedLogic l => .FailedLogic (Logic.clone l)
  | .ParseError => .ParseError
  | .RunLimit r => .RunLimit (RunLimit.clone r)
  | .ConversionError m => .ConversionError m
  | .Base64 e => .Base64 (DecodeError.clone e)

/-- Modelled from the spec: the construction site of `Format::Version`.
The deserializer that performs the version check is not under `src/`
(only the error type is); per the spec, the version found in the token
is compared against the maximum supported version and the
version-mismatch error is constructed exactly when the actual version
is higher than supported. -/
def checkFormatVersion (maximum actual : Nat) : Except Format Unit :=
  if maximum < actual then Except.error (Format.Version maximum actual)
  else Except.ok ()

/-- Modelled from the spec: the failing checks collected by the check
evaluation phase.  The Datalog engine is not under `src/` (only the
error type is); per the spec, all declared checks are evaluated in a
single pass in declaration order (block order, then check order within
a block), and the failing ones are collected in that same order.  A
declared check is modelled as its diagnostic `FailedCheck` value paired
with whether it held. -/
def collectFailedChecks (checks : List (FailedCheck × Bool)) : List FailedCheck :=
  (checks.filter fun c => !c.2).map Prod.fst

/-- Modelled from the spec: the outcome of the check evaluation phase.
`Logic::FailedChecks` is returned exactly when at least one declared
check failed, carrying the failing checks in declaration order. -/
def evaluateChecks (checks : List (FailedCheck × Bool)) : Except Logic Unit :=
  if collectFailedChecks checks = [] then Except.ok ()
  else Except.error (Logic.FailedChecks (collectFailedChecks checks))

/-- A concrete verifier check diagnostic, used as a test vector. -/
def sampleCheckA : FailedCheck := FailedCheck.Verifier ⟨0, "check a"⟩

/-- A concrete verifier check diagnostic, used as a test vector. -/
def sampleCheckB : FailedCheck := FailedCheck.Verifier ⟨1, "check b"⟩

/-- A concrete block check diagnostic, used as a test vector. -/
def sampleCheckC : FailedCheck := FailedCheck.Block ⟨1, 0, "check c"⟩

/-- Matching a `Token` back out against the `Token::Format` pattern. -/
def Token.asFormat : Token → Option Biscuit.Format
  | .Format f => some f
  | _ => none

/-- Matching a `Token` back out against the `Token::FailedLogic` pattern. -/
def Token.asFailedLogic : Token → Option Biscuit.Logic
  | .FailedLogic l => some l
  | _ => none

/-- Matching a `Token` back out against the `Token::Base64` pattern. -/
def Token.asBase64 : Token → Option DecodeError
  | .Base64 e => some e
  | _ => none

/-- The component-wise equality on `DecodeError` coincides with value
equality. -/
theorem decodeError_beq_iff (a b : DecodeError) : DecodeError.beq a b = true ↔ a = b := by
  cases a <;> cases b <;> simp [DecodeError.beq]

/-- The component-wise equality on `Signature` coincides with value
equality. -/
theorem signature_beq_iff (a b : Signature) : Signature.beq a b = true ↔ a = b := by
  cases a <;> cases b <;> simp [Signature.beq]

/-- The component-wise equality on `Format` coincides with value
equality. -/
theorem format_beq_iff (a b : Format) : Format.beq a b = true ↔ a = b := by
  cases a <;> cases b <;> simp [Format.beq, signature_beq_iff]

/-- The component-wise equality on `FailedBlockCheck` coincides with
value equality. -/
theorem failedBlockCheck_beq_iff (a b : FailedBlockCheck) :
    FailedBlockCheck.beq a b = true ↔ a = b := by
  cases a
  cases b
  simp [FailedBlockCheck.beq, FailedBlockCheck.mk.injEq, and_assoc]

/-- The component-wise equality on `FailedVerifierCheck` coincides with
value equality. -/
theorem failedVerifierCheck_beq_iff (a b : FailedVerifierCheck) :
    FailedVerifierCheck.beq a b = true ↔ a = b := by
  cases a
  cases b
  simp [FailedVerifierCheck.beq, FailedVerifierCheck.mk.injEq]

/-- The component-wise equality on `FailedCheck` coincides with value
equality. -/
theorem failedCheck_beq_iff (a b : FailedCheck) : FailedCheck.beq a b = true ↔ a = b := by
  cases a <;> cases b <;>
    simp [FailedCheck.beq, failedBlockCheck_beq_iff, failedVerifierCheck_beq_iff]

/-- The element-wise equality on lists of `FailedCheck` coincides with
value equality. -/
theorem failedCheck_listBeq_iff :
    ∀ a b : List FailedCheck, FailedCheck.listBeq a b = true ↔ a = b
  | [], [] => by simp [FailedCheck.listBeq]
  | [], _ :: _ => by simp [FailedCheck.listBeq]
  | _ :: _, [] => by simp [FailedCheck.listBeq]
  | a :: as, b :: bs => by
    simp [FailedCheck.listBeq, failedCheck_beq_iff, failedCheck_listBeq_iff as bs]

/-- The component-wise equality on `Logic` coincides with value
equality. -/
theorem logic_beq_iff (a b : Logic) : Logic.beq a b = true ↔ a = b := by
  cases a <;> cases b <;> simp [Logic.beq, failedCheck_listBeq_iff]

/-- The component-wise equality on `RunLimit` coincides with value
equality. -/
theorem runLimit_beq_iff (a b : RunLimit) : RunLimit.beq a b = true ↔ a = b := by
  cases a <;> cases b <;> simp [RunLimit.beq]

/-- The component-wise equality on `InvalidBlockIndex` coincides with
value equality. -/
theorem invalidBlockIndex_beq_iff (a b : InvalidBlockIndex) :
    InvalidBlockIndex.beq a b = true ↔ a = b := by
  cases a
  cases b
  simp [InvalidBlockIndex.beq, InvalidBlockIndex.mk.injEq]

/-- The component-wise equality on `Token` coincides with value
equality. -/
theorem token_beq_iff (a b : Token) : Token.beq a b = true ↔ a = b := by
  cases a <;> cases b <;>
    simp [Token.beq, format_beq_iff, logic_beq_iff, runLimit_beq_iff,
      invalidBlockIndex_beq_iff, decodeError_beq_iff]

/-- Cloning a `DecodeError` yields the same value. -/
theorem decodeError_clone_eq (a : DecodeError) : DecodeError.clone a = a := by
  cases a <;> rfl

/-- Cloning a `Signature` yields the same value. -/
theorem signature_clone_eq (a : Signature) : Signature.clone a = a := by
  cases a <;> rfl

/-- Cloning a `Format` yields the same value. -/
theorem format_clone_eq (a : Format) : Format.clone a = a := by
  cases a <;> simp [Format.clone, signature_clone_eq]

/-- Cloning a `FailedBlockCheck` yields the same value. -/
theorem failedBlockCheck_clone_eq (a : FailedBlockCheck) :
    FailedBlockCheck.clone a = a := rfl

/-- Cloning a `FailedVerifierCheck` yields the same value. -/
theorem failedVerifierCheck_clone_eq (a : FailedVerifierCheck) :
    FailedVerifierCheck.clone a = a := rfl

/-- Cloning a `FailedCheck` yields the same value. -/
theorem failedCheck_clone_eq (a : FailedCheck) : FailedCheck.clone a = a := by
  cases a <;> rfl

/-- Cloning a `Logic` yields the same value. -/
theorem logic_clone_eq (a : Logic) : Logic.clone a = a := by
  cases a <;> simp [Logic.clone]
  case FailedChecks l =>
    induction l with
    | nil => rfl
    | cons c cs ih => simp [failedCheck_clone_eq, ih]

/-- Cloning a `RunLimit` yields the same value. -/
theorem runLimit_clone_eq (a : RunLimit) : RunLimit.clone a = a := by
  cases a <;> rfl

/-- Cloning an `InvalidBlockIndex` yields the same value. -/
theorem invalidBlockIndex_clone_eq (a : InvalidBlockIndex) :
    InvalidBlockIndex.clone a = a := rfl

/-- Cloning a `Token` yields the same value. -/
theorem token_clone_eq (a : Token) : Token.clone a = a := by
  cases a <;>
    simp [Token.clone, format_clone_eq, logic_clone_eq, runLimit_clone_eq,
      invalidBlockIndex_clone_eq, decodeError_clone_eq]

/-- The component-wise equality on `Token` is symmetric. -/
theorem token_beq_symm (a b : Token) : Token.beq a b = Token.beq b a := by
  by_cases he : a = b
  · subst he; rfl
  · have h1 : Token.beq a b = false := by
      rcases h : Token.beq a b with _ | _
      · rfl
      · exact absurd ((token_beq_iff a b).mp h) he
    have h2 : Token.beq b a = false := by
      rcases h : Token.beq b a with _ | _
      · rfl
      · exact absurd ((token_beq_iff b a).mp h).symm he
    rw [h1, h2]

/-- Claim C1: wrapping a `Format` error, a `Logic` error, or a base64
decode error into `Token` via the `From` conversions and matching the
`Token` back out yields the original child value unchanged (lossless
round-trip). -/
theorem from_conversions_lossless_roundtrip :
    (∀ f : Format, Token.asFormat (Token.fromFormat f) = some f)
  ∧ (∀ l : Logic, Token.asFailedLogic (Token.fromLogic l) = some l)
  ∧ (∀ b : DecodeError, Token.asBase64 (Token.fromDecodeError b) = some b) :=
  ⟨fun _ => rfl, fun _ => rfl, fun _ => rfl⟩

/-- Claim C2 counterexample: it is false that the source kinds of the
`From` impls into `Token` are exactly `Format`, `Logic` and the base64
decode error: `src/error.rs` also declares `impl From<Infallible> for
Token`, a fourth implicit conversion. -/
theorem token_from_only_three_refuted :
    ¬ (∀ c : TokenFromImpl, c = TokenFromImpl.fromFormat ∨ c = TokenFromImpl.fromLogic
        ∨ c = TokenFromImpl.fromDecodeError) := by
  intro h
  rcases h TokenFromImpl.fromInfallible with h1 | h1 | h1 <;>
    exact TokenFromImpl.noConfusion h1

/-- Claim C2 (amended): the implicit conversions into `Token` come from
exactly four source kinds: `Infallible`, `Format`, `Logic` and the
base64 decode error; the `Infallible` one is distinct from the other
three and its source type is uninhabited, so it can never be invoked on
a value. -/
theorem token_from_impls_enumeration :
    (∀ c : TokenFromImpl, c = TokenFromImpl.fromInfallible ∨ c = TokenFromImpl.fromFormat
      ∨ c = TokenFromImpl.fromLogic ∨ c = TokenFromImpl.fromDecodeError)
  ∧ TokenFromImpl.fromInfallible ≠ TokenFromImpl.fromFormat
  ∧ TokenFromImpl.fromInfallible ≠ TokenFromImpl.fromLogic
  ∧ TokenFromImpl.fromInfallible ≠ TokenFromImpl.fromDecodeError
  ∧ (∀ (e : Empty) (t : Token), Token.fromInfallible e = t) := by
  refine ⟨fun c => ?_, by decide, by decide, by decide, fun e _ => e.elim⟩
  cases c
  · exact Or.inl rfl
  · exact Or.inr (Or.inl rfl)
  · exact Or.inr (Or.inr (Or.inl rfl))
  · exact Or.inr (Or.inr (Or.inr rfl))

/-- Witness for claim C2: the enumeration applied to the concrete impl
from `Infallible`. -/
theorem token_from_impls_enumeration_witness :
    TokenFromImpl.fromInfallible = TokenFromImpl.fromInfallible
  ∨ TokenFromImpl.fromInfallible = TokenFromImpl.fromFormat
  ∨ TokenFromImpl.fromInfallible = TokenFromImpl.fromLogic
  ∨ TokenFromImpl.fromInfallible = TokenFromImpl.fromDecodeError :=
  token_from_impls_enumeration.1 TokenFromImpl.fromInfallible

/-- Claim C3: every `From` conversion into `Token` is a pure total
function: it maps each input to a definite wrapped value, it is
injective (loses no payload), and the conversion from the uninhabited
`Infallible` type is vacuously total and injective. -/
theorem from_conversions_pure_total :
    (∀ f : Format, Token.fromFormat f = Token.Format f)
  ∧ (∀ l : Logic, Token.fromLogic l = Token.FailedLogic l)
  ∧ (∀ b : DecodeError, Token.fromDecodeError b = Token.Base64 b)
  ∧ (∀ f g : Format, Token.fromFormat f = Token.fromFormat g → f = g)
  ∧ (∀ l m : Logic, Token.fromLogic l = Token.fromLogic m → l = m)
  ∧ (∀ b c : DecodeError, Token.fromDecodeError b = Token.fromDecodeError c → b = c)
  ∧ (∀ e e' : Empty, Token.fromInfallible e = Token.fromInfallible e' → e = e') :=
  ⟨fun _ => rfl, fun _ => rfl, fun _ => rfl,
    fun _ _ h => Token.Format.inj h, fun _ _ h => Token.FailedLogic.inj h,
    fun _ _ h => Token.Base64.inj h, fun e => e.elim⟩

/-- Witness for claim C3: injectivity of the `Format` conversion at a
concrete input. -/
theorem from_conversions_pure_total_witness :
    Format.EmptyKeys = Format.EmptyKeys :=
  from_conversions_pure_total.2.2.2.1 Format.EmptyKeys Format.EmptyKeys rfl

/-- Claim C4: whenever the version check constructs a `Format.Version`
error, the actual version strictly exceeds the maximum supported
version. -/
theorem version_error_actual_gt_maximum (maximum actual : Nat) (f : Format)
    (h : checkFormatVersion maximum actual = Except.error f) :
    ∃ m a, f = Format.Version m a ∧ m < a := by
  by_cases hlt : maximum < actual
  · refine ⟨maximum, actual, ?_, hlt⟩
    simp [checkFormatVersion, hlt] at h
    exact h.symm
  · simp [checkFormatVersion, hlt] at h

/-- Witness for claim C4: the version check at maximum 3, actual 5. -/
theorem version_error_actual_gt_maximum_witness :
    ∃ m a, Format.Version 3 5 = Format.Version m a ∧ m < a :=
  version_error_actual_gt_maximum 3 5 (Format.Version 3 5) rfl

/-- Claim C5: whenever check evaluation reports `Logic.FailedChecks l`,
the list `l` is non-empty, equals the failing checks collected in
declaration order, and is a sublist of the declared checks in their
declared order (never reordered). -/
theorem failed_checks_nonempty_ordered (checks : List (FailedCheck × Bool))
    (l : List FailedCheck)
    (h : evaluateChecks checks = Except.error (Logic.FailedChecks l)) :
    l ≠ [] ∧ l = collectFailedChecks checks
      ∧ List.Sublist l (checks.map Prod.fst) := by
  by_cases hc : collectFailedChecks checks = []
  · simp [evaluateChecks, hc] at h
  · simp [evaluateChecks, hc] at h
    subst h
    refine ⟨hc, rfl, ?_⟩
    simpa [collectFailedChecks] using
      List.Sublist.map Prod.fst (List.filter_sublist checks)

/-- Witness for claim C5: evaluating three declared checks of which the
first and the third fail yields exactly those two, in declaration
order. -/
theorem failed_checks_nonempty_ordered_witness :
    [sampleCheckA, sampleCheckC] ≠ ([] : List FailedCheck)
  ∧ [sampleCheckA, sampleCheckC] =
      collectFailedChecks [(sampleCheckA, false), (sampleCheckB, true), (sampleCheckC, false)]
  ∧ List.Sublist [sampleCheckA, sampleCheckC]
      (List.map Prod.fst [(sampleCheckA, false), (sampleCheckB, true), (sampleCheckC, false)]) :=
  failed_checks_nonempty_ordered
    [(sampleCheckA, false), (sampleCheckB, true), (sampleCheckC, false)]
    [sampleCheckA, sampleCheckC] rfl

/-- Claim C6: `Signature` is a leaf sum type with exactly two
payload-free variants, and the two variants are distinguishable. -/
theorem signature_two_distinguishable_variants :
    (∀ s : Signature, s = Signature.InvalidFormat ∨ s = Signature.InvalidSignature)
  ∧ Signature.InvalidFormat ≠ Signature.InvalidSignature := by
  refine ⟨fun s => ?_, by decide⟩
  cases s
  · exact Or.inl rfl
  · exact Or.inr rfl

/-- Witness for claim C6: the exhaustion applied to the concrete value
`Signature.InvalidFormat`. -/
theorem signature_two_distinguishable_variants_witness :
    Signature.InvalidFormat = Signature.InvalidFormat
  ∨ Signature.InvalidFormat = Signature.InvalidSignature :=
  signature_two_distinguishable_variants.1 Signature.InvalidFormat

/-- Claim C7: `RunLimit` is a leaf sum type with exactly three
pairwise-distinct payload-free variants. -/
theorem run_limit_three_variants :
    (∀ r : RunLimit, r = RunLimit.TooManyFacts ∨ r = RunLimit.TooManyIterations
      ∨ r = RunLimit.Timeout)
  ∧ RunLimit.TooManyFacts ≠ RunLimit.TooManyIterations
  ∧ RunLimit.TooManyFacts ≠ RunLimit.Timeout
  ∧ RunLimit.TooManyIterations ≠ RunLimit.Timeout := by
  refine ⟨fun r => ?_, by decide, by decide, by decide⟩
  cases r
  · exact Or.inl rfl
  · exact Or.inr (Or.inl rfl)
  · exact Or.inr (Or.inr rfl)

/-- Witness for claim C7: the exhaustion applied to the concrete value
`RunLimit.Timeout`. -/
theorem run_limit_three_variants_witness :
    RunLimit.Timeout = RunLimit.TooManyFacts
  ∨ RunLimit.Timeout = RunLimit.TooManyIterations
  ∨ RunLimit.Timeout = RunLimit.Timeout :=
  run_limit_three_variants.1 RunLimit.Timeout

/-- Claim C8: `Token` is a closed sum: every value is exactly one of
the twelve listed variants with the listed payload shapes (the
authority-index violation carries the found index, the block-index
mismatch carries the expected and the found index, the term-conversion
variant carries a message, and the marker variants carry no payload). -/
theorem token_closed_twelve_variant_sum (t : Token) :
    t = Token.InternalError
  ∨ (∃ f, t = Token.Format f)
  ∨ (∃ i, t = Token.InvalidAuthorityIndex i)
  ∨ (∃ e fo, t = Token.InvalidBlockIndex ⟨e, fo⟩)
  ∨ t = Token.SymbolTableOverlap
  ∨ t = Token.MissingSymbols
  ∨ t = Token.Sealed
  ∨ (∃ l, t = Token.FailedLogic l)
  ∨ t = Token.ParseError
  ∨ (∃ r, t = Token.RunLimit r)
  ∨ (∃ m, t = Token.ConversionError m)
  ∨ (∃ b, t = Token.Base64 b) := by
  rcases t with _ | f | i | ⟨e, fo⟩ | _ | _ | _ | l | _ | r | m | b <;> simp

/-- Claim C9: on every type of the taxonomy, the derived equality is
structural (it coincides with value equality and is an equivalence
relation) and the derived clone is the identity on values. -/
theorem error_values_structural_eq_and_clone :
    (∀ a b c : Token, Token.beq a b = true → Token.beq b c = true → Token.beq a c = true)
  ∧ (∀ a : Token, Token.beq a a = true)
  ∧ (∀ a b : Token, Token.beq a b = Token.beq b a)
  ∧ (∀ a b : Signature, Signature.beq a b = true ↔ a = b)
  ∧ (∀ a b : Format, Format.beq a b = true ↔ a = b)
  ∧ (∀ a b : FailedBlockCheck, FailedBlockCheck.beq a b = true ↔ a = b)
  ∧ (∀ a b : FailedVerifierCheck, FailedVerifierCheck.beq a b = true ↔ a = b)
  ∧ (∀ a b : FailedCheck, FailedCheck.beq a b = true ↔ a = b)
  ∧ (∀ a b : Logic, Logic.beq a b = true ↔ a = b)
  ∧ (∀ a b : RunLimit, RunLimit.beq a b = true ↔ a = b)
  ∧ (∀ a b : InvalidBlockIndex, InvalidBlockIndex.beq a b = true ↔ a = b)
  ∧ (∀ a b : Token, Token.beq a b = true ↔ a = b)
  ∧ (∀ a : Signature, Signature.clone a = a)
  ∧ (∀ a : Format, Format.clone a = a)
  ∧ (∀ a : FailedBlockCheck, FailedBlockCheck.clone a = a)
  ∧ (∀ a : FailedVerifierCheck, FailedVerifierCheck.clone a = a)
  ∧ (∀ a : FailedCheck, FailedCheck.clone a = a)
  ∧ (∀ a : Logic, Logic.clone a = a)
  ∧ (∀ a : RunLimit, RunLimit.clone a = a)
  ∧ (∀ a : InvalidBlockIndex, InvalidBlockIndex.clone a = a)
  ∧ (∀ a : Token, Token.clone a = a) := by
  refine ⟨?_, fun a => (token_beq_iff a a).mpr rfl, token_beq_symm,
    signature_beq_iff, format_beq_iff, failedBlockCheck_beq_iff,
    failedVerifierCheck_beq_iff, failedCheck_beq_iff, logic_beq_iff,
    runLimit_beq_iff, invalidBlockIndex_beq_iff, token_beq_iff,
    signature_clone_eq, format_clone_eq, failedBlockCheck_clone_eq,
    failedVerifierCheck_clone_eq, failedCheck_clone_eq, logic_clone_eq,
    runLimit_clone_eq, invalidBlockIndex_clone_eq, token_clone_eq⟩
  intro a b c hab hbc
  exact (token_beq_iff a c).mpr (((token_beq_iff a b).mp hab).trans ((token_beq_iff b c).mp hbc))

/-- Witness for claim C9: transitivity of the structural equality at
concrete inputs. -/
theorem error_values_structural_eq_and_clone_witness :
    Token.beq Token.Sealed Token.Sealed = true :=
  error_values_structural_eq_and_clone.1 Token.Sealed Token.Sealed Token.Sealed rfl rfl

/-- Claim C10: the three value-level conversions into `Token` land in
pairwise distinct variants (so the originating subsystem is always
recoverable by matching) and each conversion is injective. -/
theorem from_conversions_disjoint_injective :
    (∀ (f : Format) (l : Logic), Token.fromFormat f ≠ Token.fromLogic l)
  ∧ (∀ (f : Format) (b : DecodeError), Token.fromFormat f ≠ Token.fromDecodeError b)
  ∧ (∀ (l : Logic) (b : DecodeError), Token.fromLogic l ≠ Token.fromDecodeError b)
  ∧ (∀ f g : Format, Token.fromFormat f = Token.fromFormat g → f = g)
  ∧ (∀ l m : Logic, Token.fromLogic l = Token.fromLogic m → l = m)
  ∧ (∀ b c : DecodeError, Token.fromDecodeError b = Token.fromDecodeError c → b = c) :=
  ⟨fun _ _ h => Token.noConfusion h, fun _ _ h => Token.noConfusion h,
    fun _ _ h => Token.noConfusion h,
    fun _ _ h => Token.Format.inj h, fun _ _ h => Token.FailedLogic.inj h,
    fun _ _ h => Token.Base64.inj h⟩

/-- Witness for claim C10: injectivity of the `Logic` conversion at a
concrete input. -/
theorem from_conversions_disjoint_injective_witness :
    Logic.VerifierNotEmpty = Logic.VerifierNotEmpty :=
  from_conversions_disjoint_injective.2.2.2.2.1 Logic.VerifierNotEmpty
    Logic.VerifierNotEmpty rfl

end Biscuit
